import Mathlib

/-!
Verification of the two-lane RFID attendance checkpoint
(`src/rfid_attendance_system.ino`).

The Arduino sketch is shallowly embedded: the global mutable state
(`entryTimes`, `isInside`, `lastScanTime`, `inReadyMode`, `lastMinute`,
`errorLog`/`errorCount`) becomes an explicit `SysState`, one execution of
`loop()` becomes the pure function `loopStep` over the inputs an iteration
reads (RTC time, `millis()`, and the optional card present at each reader),
and each feedback branch is abstracted as an `Outcome` value.  The 32-bit
unsigned subtractions of the C code (`unsigned long`) are modelled by
`usub32`, i.e. subtraction modulo 2^32.
-/

namespace RFID

/-- `NUM_KNOWN_CARDS` from the sketch. -/
abbrev NUM_KNOWN_CARDS : Nat := 3

/-- `MAX_ERROR_LOG` from the sketch. -/
abbrev MAX_ERROR_LOG : Nat := 10

/-- `DEBOUNCE_TIME` from the sketch (milliseconds). -/
abbrev DEBOUNCE_TIME : Nat := 1500

/-- 2^32, the modulus of Arduino `unsigned long` arithmetic. -/
abbrev W32 : Nat := 4294967296

/-- Unsigned 32-bit subtraction `a - b` as performed on `unsigned long`
operands: the result is `(a - b) mod 2^32`, wrapping when `b > a`. -/
def usub32 (a b : Nat) : Nat := (a % W32 + (W32 - b % W32)) % W32

/-- A reading of the DS3231 real-time clock (`DateTime` of RTClib):
calendar fields plus the `unixtime()` accessor value.  The clock is an
external input, so the unix timestamp is carried as its own field. -/
structure DateTimeRec where
  year : Nat
  month : Nat
  day : Nat
  hour : Nat
  minute : Nat
  second : Nat
  unixtime : Nat
deriving DecidableEq

/-- The two scan directions (entrance reader `rfidIn`, exit reader
`rfidOut`). -/
inductive Lane where
  | entrance
  | exitLane
deriving DecidableEq

/-- The classification a single accepted scan receives in `loop()`, one
constructor per feedback branch of the sketch. -/
inductive Outcome where
  | unknownCredential (lane : Lane) (uid : List Char)
  | validEntry (slot : Fin NUM_KNOWN_CARDS)
  | validExit (slot : Fin NUM_KNOWN_CARDS) (dwell : Nat)
  | doubleEntry (slot : Fin NUM_KNOWN_CARDS)
  | invalidExit (slot : Fin NUM_KNOWN_CARDS)
deriving DecidableEq

/-- `knownUIDs` from the sketch. -/
def knownUIDs : Fin NUM_KNOWN_CARDS → List Char :=
  ![("5ADA9C80").data, ("5AAC5180").data, ("93D0140E").data]

/-- `knownNames` from the sketch. -/
def knownNames : Fin NUM_KNOWN_CARDS → List Char :=
  ![("Andrei").data, ("Bogdan").data, ("Denis").data]

/-- One lowercase hexadecimal digit, as produced by Arduino
`String(value, HEX)`. -/
def hexDigit (n : Nat) : Char :=
  if n < 10 then Char.ofNat (48 + n) else Char.ofNat (87 + n)

/-- The characters `getUID` appends for one byte: a `"0"` pad for values
below `0x10`, then `String(buffer[i], HEX)`. -/
def byteHex (b : Nat) : List Char :=
  if b < 16 then ['0', hexDigit b]
  else [hexDigit (b / 16), hexDigit (b % 16)]

/-- `getUID`: hex-encode the raw UID bytes and uppercase the result. -/
def getUID (buffer : List Nat) : List Char :=
  (buffer.flatMap byteHex).map Char.toUpper

/-- `findPersonByUID`: compare only the first 8 characters of the UID
against each known UID in configured order; first match wins, `none`
models the `-1` of the sketch.  (The `for` loop over the three cards is
unrolled.) -/
def findPersonByUID (uid : List Char) : Option (Fin NUM_KNOWN_CARDS) :=
  if uid.take 8 = knownUIDs 0 then some 0
  else if uid.take 8 = knownUIDs 1 then some 1
  else if uid.take 8 = knownUIDs 2 then some 2
  else none

/-- Decimal digits of `n`, as produced by Arduino `String(n)`. -/
def natDigits (n : Nat) : List Char := Nat.toDigits 10 n

/-- Zero-pad to two digits: the sketch's
`if (x < 10) result += "0"; result += String(x)` idiom. -/
def pad2 (n : Nat) : List Char := (if n < 10 then ['0'] else []) ++ natDigits n

/-- `formatDateTime`: `YYYY/MM/DD HH:MM:SS` (year unpadded). -/
def formatDateTime (dt : DateTimeRec) : List Char :=
  natDigits dt.year ++ ['/'] ++ pad2 dt.month ++ ['/'] ++ pad2 dt.day ++ [' ']
  ++ pad2 dt.hour ++ [':'] ++ pad2 dt.minute ++ [':'] ++ pad2 dt.second

/-- The error-log globals of the sketch: the `errorLog` array of
`MAX_ERROR_LOG` strings and the monotonically increasing counter
`errorCount`. -/
structure ErrLog where
  errorLog : Fin MAX_ERROR_LOG → List Char
  errorCount : Nat

/-- The array index `k % MAX_ERROR_LOG` used by the circular buffer. -/
def logIdx (k : Nat) : Fin MAX_ERROR_LOG := ⟨k % MAX_ERROR_LOG, Nat.mod_lt _ (by decide)⟩

/-- The buffer write performed by `logError`: store the entry at slot
`errorCount % MAX_ERROR_LOG` and increment `errorCount`. -/
def logAppend (L : ErrLog) (entry : List Char) : ErrLog :=
  { errorLog := Function.update L.errorLog (logIdx L.errorCount) entry
    errorCount := L.errorCount + 1 }

/-- `logError`: prepend the formatted timestamp and append to the circular
buffer. -/
def logError (L : ErrLog) (now : DateTimeRec) (msg : List Char) : ErrLog :=
  logAppend L (formatDateTime now ++ (" - ").data ++ msg)

/-- `printErrorLog`: reconstruct the chronological order of the retained
entries (`startIndex`/`entries` computation of the sketch) and return them
oldest first. -/
def printErrorLog (L : ErrLog) : List (List Char) :=
  let startIndex := if L.errorCount > MAX_ERROR_LOG then L.errorCount % MAX_ERROR_LOG else 0
  let entries := min L.errorCount MAX_ERROR_LOG
  (List.range entries).map (fun i => L.errorLog (logIdx (startIndex + i)))

/-- Appending a whole list of (already formatted) entries in order. -/
def logAppendAll (L : ErrLog) (ms : List (List Char)) : ErrLog :=
  ms.foldl logAppend L

/-- The log at startup: empty strings, zero count. -/
def emptyLog : ErrLog := { errorLog := fun _ => [], errorCount := 0 }

/-- The mutable globals of the sketch that one `loop()` iteration reads and
writes. -/
structure SysState where
  entryTimes : Fin NUM_KNOWN_CARDS → Nat
  isInside : Fin NUM_KNOWN_CARDS → Bool
  lastScanTime : Nat
  inReadyMode : Bool
  lastMinute : Int
  errLog : ErrLog

/-- The external inputs one `loop()` iteration consumes: the RTC reading,
the `millis()` value, and the optional card successfully read at each
reader (`PICC_IsNewCardPresent && PICC_ReadCardSerial`), as raw UID
bytes. -/
structure LoopInput where
  now : DateTimeRec
  millis : Nat
  cardIn : Option (List Nat)
  cardOut : Option (List Nat)

/-- The state after `setup()` on a healthy startup: everyone outside, all
entry times zeroed, empty log, ready screen shown. -/
def initState : SysState :=
  { entryTimes := fun _ => 0
    isInside := fun _ => false
    lastScanTime := 0
    inReadyMode := true
    lastMinute := 0
    errLog := emptyLog }

/-- `doubleEntryAlarm`: log `"Double entry: <name>"`; no presence state is
touched. -/
def doubleEntryAlarm (st : SysState) (now : DateTimeRec) (i : Fin NUM_KNOWN_CARDS) :
    SysState :=
  { st with errLog := logError st.errLog now (("Double entry: ").data ++ knownNames i) }

/-- `invalidExitAlarm`: log `"Invalid exit: <name>"`; no presence state is
touched. -/
def invalidExitAlarm (st : SysState) (now : DateTimeRec) (i : Fin NUM_KNOWN_CARDS) :
    SysState :=
  { st with errLog := logError st.errLog now (("Invalid exit: ").data ++ knownNames i) }

/-- The entrance-reader branch of `loop()` (card already read): resolve the
UID; known and already inside → double-entry alarm; known and outside →
record `entryTimes = now.unixtime()`, `isInside = true`; unknown → log
`"Unknown card: <uid>"`. -/
def processEntryCard (st : SysState) (now : DateTimeRec) (buffer : List Nat) :
    SysState × Outcome :=
  let uid := getUID buffer
  match findPersonByUID uid with
  | some i =>
    if st.isInside i then
      (doubleEntryAlarm st now i, Outcome.doubleEntry i)
    else
      ({ st with entryTimes := Function.update st.entryTimes i now.unixtime
                 isInside := Function.update st.isInside i true },
       Outcome.validEntry i)
  | none =>
    ({ st with errLog := logError st.errLog now (("Unknown card: ").data ++ uid) },
     Outcome.unknownCredential Lane.entrance uid)

/-- The exit-reader branch of `loop()`: known and not inside →
invalid-exit alarm; known and inside → compute
`timeSpentSeconds = now.unixtime() - entryTimes[i]` (unsigned 32-bit) and
set `isInside = false` (note: `entryTimes[i]` is NOT cleared); unknown →
log `"Unknown card at exit: <uid>"`. -/
def processExitCard (st : SysState) (now : DateTimeRec) (buffer : List Nat) :
    SysState × Outcome :=
  let uid := getUID buffer
  match findPersonByUID uid with
  | some i =>
    if !st.isInside i then
      (invalidExitAlarm st now i, Outcome.invalidExit i)
    else
      ({ st with isInside := Function.update st.isInside i false },
       Outcome.validExit i (usub32 now.unixtime (st.entryTimes i)))
  | none =>
    ({ st with errLog := logError st.errLog now (("Unknown card at exit: ").data ++ uid) },
     Outcome.unknownCredential Lane.exitLane uid)

/-- The minute-refresh at the top of `loop()`: while in ready mode, redraw
the clock line when the minute changed (only `lastMinute` is written). -/
def updMinute (st : SysState) (now : DateTimeRec) : SysState :=
  if st.inReadyMode ∧ (now.minute : Int) ≠ st.lastMinute then
    { st with lastMinute := (now.minute : Int) }
  else st

/-- The debounce-gated middle of `loop()`: when
`currentTime - lastScanTime >= DEBOUNCE_TIME` (unsigned), process the
entrance reader and then the exit reader — both inside the SAME gate
check — each accepted card clearing `inReadyMode` and stamping
`lastScanTime = currentTime`.  When the gate is closed nothing happens. -/
def scanPhase (st : SysState) (inp : LoopInput) : SysState × List Outcome :=
  if usub32 inp.millis st.lastScanTime ≥ DEBOUNCE_TIME then
    let r₁ : SysState × List Outcome :=
      match inp.cardIn with
      | some buffer =>
        let p := processEntryCard { st with inReadyMode := false } inp.now buffer
        ({ p.1 with lastScanTime := inp.millis }, [p.2])
      | none => (st, [])
    let r₂ : SysState × List Outcome :=
      match inp.cardOut with
      | some buffer =>
        let p := processExitCard { r₁.1 with inReadyMode := false } inp.now buffer
        ({ p.1 with lastScanTime := inp.millis }, [p.2])
      | none => (r₁.1, [])
    (r₂.1, r₁.2 ++ r₂.2)
  else (st, [])

/-- The tail of `loop()`: `showReadyScreen()` when not in ready mode and
`currentTime - lastScanTime >= 3000` (unsigned). -/
def readyReset (st : SysState) (now : DateTimeRec) (currentTime : Nat) : SysState :=
  if st.inReadyMode = false ∧ usub32 currentTime st.lastScanTime ≥ 3000 then
    { st with lastMinute := (now.minute : Int), inReadyMode := true }
  else st

/-- One full `loop()` iteration. -/
def loopStep (st : SysState) (inp : LoopInput) : SysState × List Outcome :=
  let st₀ := updMinute st inp.now
  let r := scanPhase st₀ inp
  (readyReset r.1 inp.now inp.millis, r.2)

/-! ### Arithmetic facts about unsigned 32-bit subtraction -/

theorem usub32_self (a : Nat) : usub32 a a = 0 := by
  simp only [usub32, W32]; omega

theorem usub32_of_le {a b : Nat} (hba : b ≤ a) (ha : a < W32) :
    usub32 a b = a - b := by
  simp only [usub32, W32] at *; omega

theorem usub32_of_lt {a b : Nat} (hab : a < b) (hb : b < W32) :
    usub32 a b = W32 + a - b := by
  simp only [usub32, W32] at *; omega

theorem usub32_lt_3000_of_self (a : Nat) : ¬ usub32 a a ≥ 3000 := by
  rw [usub32_self]; omega

/-! ### Frame lemmas: which fields each phase of `loop()` can touch -/

@[simp] theorem updMinute_entryTimes (st : SysState) (now : DateTimeRec) :
    (updMinute st now).entryTimes = st.entryTimes := by
  unfold updMinute; split <;> rfl

@[simp] theorem updMinute_isInside (st : SysState) (now : DateTimeRec) :
    (updMinute st now).isInside = st.isInside := by
  unfold updMinute; split <;> rfl

@[simp] theorem updMinute_lastScanTime (st : SysState) (now : DateTimeRec) :
    (updMinute st now).lastScanTime = st.lastScanTime := by
  unfold updMinute; split <;> rfl

@[simp] theorem updMinute_inReadyMode (st : SysState) (now : DateTimeRec) :
    (updMinute st now).inReadyMode = st.inReadyMode := by
  unfold updMinute; split <;> rfl

@[simp] theorem updMinute_errLog (st : SysState) (now : DateTimeRec) :
    (updMinute st now).errLog = st.errLog := by
  unfold updMinute; split <;> rfl

@[simp] theorem readyReset_entryTimes (st : SysState) (now : DateTimeRec) (t : Nat) :
    (readyReset st now t).entryTimes = st.entryTimes := by
  unfold readyReset; split <;> rfl

@[simp] theorem readyReset_isInside (st : SysState) (now : DateTimeRec) (t : Nat) :
    (readyReset st now t).isInside = st.isInside := by
  unfold readyReset; split <;> rfl

@[simp] theorem readyReset_lastScanTime (st : SysState) (now : DateTimeRec) (t : Nat) :
    (readyReset st now t).lastScanTime = st.lastScanTime := by
  unfold readyReset; split <;> rfl

@[simp] theorem readyReset_errLog (st : SysState) (now : DateTimeRec) (t : Nat) :
    (readyReset st now t).errLog = st.errLog := by
  unfold readyReset; split <;> rfl

theorem readyReset_inReadyMode (st : SysState) (now : DateTimeRec) (t : Nat) :
    (readyReset st now t).inReadyMode
      = (st.inReadyMode || decide (usub32 t st.lastScanTime ≥ 3000)) := by
  unfold readyReset
  split
  · next h => simp [h.1, h.2]
  · next h =>
    cases hb : st.inReadyMode with
    | true => simp
    | false =>
      have : ¬ usub32 t st.lastScanTime ≥ 3000 := fun hc => h ⟨hb, hc⟩
      simp [this]

theorem readyReset_noop (st : SysState) (now : DateTimeRec) (t : Nat)
    (h : ¬ usub32 t st.lastScanTime ≥ 3000) : readyReset st now t = st := by
  unfold readyReset
  rw [if_neg]
  exact fun hc => h hc.2

/-! ### Characterization of one `loop()` iteration per classification branch -/

theorem validEntry_step (st : SysState) (now : DateTimeRec) (m : Nat)
    (b : List Nat) (i : Fin NUM_KNOWN_CARDS)
    (hres : findPersonByUID (getUID b) = some i)
    (hins : st.isInside i = false)
    (hg : usub32 m st.lastScanTime ≥ DEBOUNCE_TIME) :
    (loopStep st ⟨now, m, some b, none⟩).2 = [Outcome.validEntry i] ∧
    (loopStep st ⟨now, m, some b, none⟩).1.entryTimes
      = Function.update st.entryTimes i now.unixtime ∧
    (loopStep st ⟨now, m, some b, none⟩).1.isInside
      = Function.update st.isInside i true ∧
    (loopStep st ⟨now, m, some b, none⟩).1.lastScanTime = m ∧
    (loopStep st ⟨now, m, some b, none⟩).1.inReadyMode = false ∧
    (loopStep st ⟨now, m, some b, none⟩).1.errLog = st.errLog := by
  refine ⟨?_, ?_, ?_, ?_, ?_, ?_⟩ <;>
    simp [loopStep, scanPhase, processEntryCard, readyReset, hres, hins, hg, usub32_self]

theorem doubleEntry_step (st : SysState) (now : DateTimeRec) (m : Nat)
    (b : List Nat) (i : Fin NUM_KNOWN_CARDS)
    (hres : findPersonByUID (getUID b) = some i)
    (hins : st.isInside i = true)
    (hg : usub32 m st.lastScanTime ≥ DEBOUNCE_TIME) :
    (loopStep st ⟨now, m, some b, none⟩).2 = [Outcome.doubleEntry i] ∧
    (loopStep st ⟨now, m, some b, none⟩).1.entryTimes = st.entryTimes ∧
    (loopStep st ⟨now, m, some b, none⟩).1.isInside = st.isInside ∧
    (loopStep st ⟨now, m, some b, none⟩).1.lastScanTime = m ∧
    (loopStep st ⟨now, m, some b, none⟩).1.inReadyMode = false ∧
    (loopStep st ⟨now, m, some b, none⟩).1.errLog
      = logError st.errLog now (("Double entry: ").data ++ knownNames i) := by
  refine ⟨?_, ?_, ?_, ?_, ?_, ?_⟩ <;>
    simp [loopStep, scanPhase, processEntryCard, doubleEntryAlarm, readyReset,
      hres, hins, hg, usub32_self]

theorem validExit_step (st : SysState) (now : DateTimeRec) (m : Nat)
    (b : List Nat) (i : Fin NUM_KNOWN_CARDS)
    (hres : findPersonByUID (getUID b) = some i)
    (hins : st.isInside i = true)
    (hg : usub32 m st.lastScanTime ≥ DEBOUNCE_TIME) :
    (loopStep st ⟨now, m, none, some b⟩).2
      = [Outcome.validExit i (usub32 now.unixtime (st.entryTimes i))] ∧
    (loopStep st ⟨now, m, none, some b⟩).1.entryTimes = st.entryTimes ∧
    (loopStep st ⟨now, m, none, some b⟩).1.isInside
      = Function.update st.isInside i false ∧
    (loopStep st ⟨now, m, none, some b⟩).1.lastScanTime = m ∧
    (loopStep st ⟨now, m, none, some b⟩).1.inReadyMode = false ∧
    (loopStep st ⟨now, m, none, some b⟩).1.errLog = st.errLog := by
  refine ⟨?_, ?_, ?_, ?_, ?_, ?_⟩ <;>
    simp [loopStep, scanPhase, processExitCard, readyReset, hres, hins, hg, usub32_self]

theorem invalidExit_step (st : SysState) (now : DateTimeRec) (m : Nat)
    (b : List Nat) (i : Fin NUM_KNOWN_CARDS)
    (hres : findPersonByUID (getUID b) = some i)
    (hins : st.isInside i = false)
    (hg : usub32 m st.lastScanTime ≥ DEBOUNCE_TIME) :
    (loopStep st ⟨now, m, none, some b⟩).2 = [Outcome.invalidExit i] ∧
    (loopStep st ⟨now, m, none, some b⟩).1.entryTimes = st.entryTimes ∧
    (loopStep st ⟨now, m, none, some b⟩).1.isInside = st.isInside ∧
    (loopStep st ⟨now, m, none, some b⟩).1.lastScanTime = m ∧
    (loopStep st ⟨now, m, none, some b⟩).1.inReadyMode = false ∧
    (loopStep st ⟨now, m, none, some b⟩).1.errLog
      = logError st.errLog now (("Invalid exit: ").data ++ knownNames i) := by
  refine ⟨?_, ?_, ?_, ?_, ?_, ?_⟩ <;>
    simp [loopStep, scanPhase, processExitCard, invalidExitAlarm, readyReset,
      hres, hins, hg, usub32_self]

theorem unknownEntry_step (st : SysState) (now : DateTimeRec) (m : Nat)
    (b : List Nat)
    (hres : findPersonByUID (getUID b) = none)
    (hg : usub32 m st.lastScanTime ≥ DEBOUNCE_TIME) :
    (loopStep st ⟨now, m, some b, none⟩).2
      = [Outcome.unknownCredential Lane.entrance (getUID b)] ∧
    (loopStep st ⟨now, m, some b, none⟩).1.entryTimes = st.entryTimes ∧
    (loopStep st ⟨now, m, some b, none⟩).1.isInside = st.isInside ∧
    (loopStep st ⟨now, m, some b, none⟩).1.lastScanTime = m ∧
    (loopStep st ⟨now, m, some b, none⟩).1.inReadyMode = false ∧
    (loopStep st ⟨now, m, some b, none⟩).1.errLog
      = logError st.errLog now (("Unknown card: ").data ++ getUID b) := by
  refine ⟨?_, ?_, ?_, ?_, ?_, ?_⟩ <;>
    simp [loopStep, scanPhase, processEntryCard, readyReset, hres, hg, usub32_self]

theorem unknownExit_step (st : SysState) (now : DateTimeRec) (m : Nat)
    (b : List Nat)
    (hres : findPersonByUID (getUID b) = none)
    (hg : usub32 m st.lastScanTime ≥ DEBOUNCE_TIME) :
    (loopStep st ⟨now, m, none, some b⟩).2
      = [Outcome.unknownCredential Lane.exitLane (getUID b)] ∧
    (loopStep st ⟨now, m, none, some b⟩).1.entryTimes = st.entryTimes ∧
    (loopStep st ⟨now, m, none, some b⟩).1.isInside = st.isInside ∧
    (loopStep st ⟨now, m, none, some b⟩).1.lastScanTime = m ∧
    (loopStep st ⟨now, m, none, some b⟩).1.inReadyMode = false ∧
    (loopStep st ⟨now, m, none, some b⟩).1.errLog
      = logError st.errLog now (("Unknown card at exit: ").data ++ getUID b) := by
  refine ⟨?_, ?_, ?_, ?_, ?_, ?_⟩ <;>
    simp [loopStep, scanPhase, processExitCard, readyReset, hres, hg, usub32_self]

theorem gateClosed_step (st : SysState) (inp : LoopInput)
    (hg : usub32 inp.millis st.lastScanTime < DEBOUNCE_TIME) :
    (loopStep st inp).2 = [] ∧
    (loopStep st inp).1.entryTimes = st.entryTimes ∧
    (loopStep st inp).1.isInside = st.isInside ∧
    (loopStep st inp).1.lastScanTime = st.lastScanTime ∧
    (loopStep st inp).1.errLog = st.errLog := by
  have hg' : usub32 inp.millis st.lastScanTime < 1500 := hg
  have hng : ¬ usub32 inp.millis st.lastScanTime ≥ DEBOUNCE_TIME := by omega
  have h3000 : ¬ 3000 ≤ usub32 inp.millis st.lastScanTime := by omega
  refine ⟨?_, ?_, ?_, ?_, ?_⟩ <;>
    simp [loopStep, scanPhase, readyReset, hng, h3000]

/-! ### Emission helpers: accepted events stamp `lastScanTime` -/

theorem processEntryCard_inReadyMode (st : SysState) (now : DateTimeRec) (b : List Nat) :
    (processEntryCard st now b).1.inReadyMode = st.inReadyMode := by
  unfold processEntryCard doubleEntryAlarm
  rcases h : findPersonByUID (getUID b) with _ | i <;> simp [h]
  split <;> rfl

theorem processExitCard_inReadyMode (st : SysState) (now : DateTimeRec) (b : List Nat) :
    (processExitCard st now b).1.inReadyMode = st.inReadyMode := by
  unfold processExitCard invalidExitAlarm
  rcases h : findPersonByUID (getUID b) with _ | i <;> simp [h]
  split <;> rfl

theorem scanPhase_emits (st : SysState) (inp : LoopInput)
    (h : (scanPhase st inp).2 ≠ []) :
    (scanPhase st inp).1.lastScanTime = inp.millis ∧
    (scanPhase st inp).1.inReadyMode = false := by
  unfold scanPhase at h ⊢
  by_cases hg : usub32 inp.millis st.lastScanTime ≥ DEBOUNCE_TIME
  · rw [if_pos hg] at h ⊢
    rcases hin : inp.cardIn with _ | bIn <;> rcases hout : inp.cardOut with _ | bOut <;>
      simp [hin, hout, processEntryCard_inReadyMode, processExitCard_inReadyMode] at h ⊢
  · rw [if_neg hg] at h
    simp at h

theorem scanPhase_nil_state (st : SysState) (inp : LoopInput)
    (h : (scanPhase st inp).2 = []) : (scanPhase st inp).1 = st := by
  unfold scanPhase at h ⊢
  by_cases hg : usub32 inp.millis st.lastScanTime ≥ DEBOUNCE_TIME
  · rw [if_pos hg] at h ⊢
    rcases hin : inp.cardIn with _ | bIn <;> rcases hout : inp.cardOut with _ | bOut <;>
      simp [hin, hout] at h ⊢
  · rw [if_neg hg]

theorem loopStep_emits_lastScanTime (st : SysState) (inp : LoopInput)
    (h : (loopStep st inp).2 ≠ []) :
    (loopStep st inp).1.lastScanTime = inp.millis := by
  unfold loopStep at h ⊢
  simp only [readyReset_lastScanTime]
  exact (scanPhase_emits _ _ h).1

theorem loopStep_emits_gate (st : SysState) (inp : LoopInput)
    (h : (loopStep st inp).2 ≠ []) :
    usub32 inp.millis st.lastScanTime ≥ DEBOUNCE_TIME := by
  by_contra hg
  exact h (gateClosed_step st inp (by omega)).1

/-! ### Circular error-log lemmas -/

theorem logIdx_ne {a b : Nat} (h : a % MAX_ERROR_LOG ≠ b % MAX_ERROR_LOG) :
    logIdx a ≠ logIdx b :=
  fun hc => h (congrArg Fin.val hc)

theorem logAppendAll_errorCount (ms : List (List Char)) :
    ∀ L : ErrLog, (logAppendAll L ms).errorCount = L.errorCount + ms.length := by
  induction ms with
  | nil => intro L; simp [logAppendAll]
  | cons m ms ih =>
    intro L
    have : logAppendAll L (m :: ms) = logAppendAll (logAppend L m) ms := rfl
    rw [this, ih (logAppend L m)]
    simp [logAppend]
    omega

theorem logAppendAll_untouched (ms : List (List Char)) :
    ∀ (L : ErrLog) (j : Nat),
      (∀ k, k < ms.length → (L.errorCount + k) % MAX_ERROR_LOG ≠ j % MAX_ERROR_LOG) →
      (logAppendAll L ms).errorLog (logIdx j) = L.errorLog (logIdx j) := by
  induction ms with
  | nil => intro L j _; rfl
  | cons m ms ih =>
    intro L j hk
    have hstep : logAppendAll L (m :: ms) = logAppendAll (logAppend L m) ms := rfl
    rw [hstep, ih (logAppend L m) j ?later]
    case later =>
      intro k hk'
      have hx := hk (k + 1) (by simp; omega)
      simp only [logAppend, MAX_ERROR_LOG] at hx ⊢
      omega
    have h0 : L.errorCount % MAX_ERROR_LOG ≠ j % MAX_ERROR_LOG := by
      simpa using hk 0 (by simp)
    simp only [logAppend]
    exact Function.update_noteq (logIdx_ne fun hc => h0 hc.symm) m L.errorLog

theorem logAppendAll_get (ms : List (List Char)) :
    ∀ (L : ErrLog) (j : Nat) (hj : j < ms.length),
      ms.length ≤ j + MAX_ERROR_LOG →
      (logAppendAll L ms).errorLog (logIdx (L.errorCount + j)) = ms[j] := by
  induction ms with
  | nil => intro L j hj _; exact absurd hj (by simp)
  | cons m ms ih =>
    intro L j hj hwin
    have hstep : logAppendAll L (m :: ms) = logAppendAll (logAppend L m) ms := rfl
    cases j with
    | zero =>
      rw [hstep, Nat.add_zero]
      rw [logAppendAll_untouched ms (logAppend L m) L.errorCount ?fresh]
      case fresh =>
        intro k hk
        have hlen : ms.length + 1 ≤ MAX_ERROR_LOG := by simpa using hwin
        simp only [logAppend, MAX_ERROR_LOG] at hlen hk ⊢
        omega
      simp only [logAppend]
      simp [Function.update_same]
    | succ j' =>
      have hj' : j' < ms.length := by simpa using Nat.lt_of_succ_lt_succ hj
      have hwin' : ms.length ≤ j' + MAX_ERROR_LOG := by
        simp only [List.length_cons] at hwin
        omega
      have := ih (logAppend L m) j' hj' hwin'
      rw [hstep]
      have hidx : L.errorCount + (j' + 1) = (logAppend L m).errorCount + j' := by
        simp only [logAppend]; omega
      rw [hidx, this]
      simp

theorem printErrorLog_appendAll (ms : List (List Char)) :
    printErrorLog (logAppendAll emptyLog ms) = ms.drop (ms.length - MAX_ERROR_LOG) := by
  have hcount : (logAppendAll emptyLog ms).errorCount = ms.length := by
    simpa [emptyLog] using logAppendAll_errorCount ms emptyLog
  simp only [printErrorLog, hcount]
  apply List.ext_getElem
  · simp only [List.length_map, List.length_range, List.length_drop, MAX_ERROR_LOG]
    rcases Nat.le_total ms.length 10 with h | h
    · rw [Nat.min_eq_left h]; omega
    · rw [Nat.min_eq_right h]; omega
  · intro n h₁ h₂
    have hn : n < min ms.length MAX_ERROR_LOG := by
      simpa using h₁
    have hn' : n < ms.length := lt_of_lt_of_le hn (min_le_left _ _)
    have hn10 : n < 10 := lt_of_lt_of_le hn (min_le_right _ _)
    simp only [List.getElem_map, List.getElem_range, List.getElem_drop]
    by_cases hbig : ms.length > MAX_ERROR_LOG
    · rw [if_pos hbig]
      have hb : 10 < ms.length := hbig
      have hget := logAppendAll_get ms emptyLog (ms.length - MAX_ERROR_LOG + n)
        (by simp only [MAX_ERROR_LOG]; omega)
        (by simp only [MAX_ERROR_LOG]; omega)
      have hidx : logIdx (ms.length % MAX_ERROR_LOG + n)
          = logIdx (emptyLog.errorCount + (ms.length - MAX_ERROR_LOG + n)) := by
        apply Fin.ext
        show (ms.length % MAX_ERROR_LOG + n) % MAX_ERROR_LOG
          = (emptyLog.errorCount + (ms.length - MAX_ERROR_LOG + n)) % MAX_ERROR_LOG
        simp only [emptyLog, MAX_ERROR_LOG]
        omega
      rw [hidx, hget]
    · rw [if_neg hbig]
      have hb : ms.length ≤ 10 := Nat.not_lt.mp hbig
      have hget := logAppendAll_get ms emptyLog n hn'
        (by simp only [MAX_ERROR_LOG]; omega)
      have hidx : logIdx (0 + n) = logIdx (emptyLog.errorCount + n) := rfl
      rw [hidx, hget]
      have hzero : ms.length - MAX_ERROR_LOG = 0 := by
        simp only [MAX_ERROR_LOG]; omega
      simp only [hzero, Nat.zero_add]

/-! ### Concrete sample data for witnesses and counterexamples -/

/-- Raw UID bytes of the first configured card: `getUID` renders them as
`"5ADA9C80"` (Andrei). -/
def uidA : List Nat := [90, 218, 156, 128]

/-- Raw UID bytes of the second configured card: `getUID` renders them as
`"5AAC5180"` (Bogdan). -/
def uidB : List Nat := [90, 172, 81, 128]

/-- An RTC reading with the given unix timestamp. -/
def dtAt (u : Nat) : DateTimeRec := ⟨2025, 6, 1, 12, 0, 0, u⟩

/-- The registry invariant claimed by the specification: a slot is marked
inside exactly when its entry time is set (non-zero, `0` being the "none"
sentinel the sketch initializes `entryTimes` with). -/
def registryInvariant (st : SysState) : Prop :=
  ∀ i : Fin NUM_KNOWN_CARDS, st.isInside i = true ↔ st.entryTimes i ≠ 0

instance (st : SysState) : Decidable (registryInvariant st) := by
  unfold registryInvariant; infer_instance

/-! ### C1 -/

/-- C1, counterexample: after Entry(Andrei) at unix time 1000 followed by a
valid Exit(Andrei), the slot has `inside = false` but `entryTimes` still
holds 1000 — the code only clears the flag (line 279), never the entry
time — so the claimed iff-invariant `inside = true ↔ entry_time set` is
violated at an observation point between processed events. -/
theorem c1_counterexample :
    (loopStep (loopStep initState ⟨dtAt 1000, 2000, some uidA, none⟩).1
        ⟨dtAt 5000, 4000, none, some uidA⟩).1.isInside 0 = false ∧
    (loopStep (loopStep initState ⟨dtAt 1000, 2000, some uidA, none⟩).1
        ⟨dtAt 5000, 4000, none, some uidA⟩).1.entryTimes 0 = 1000 ∧
    ¬ registryInvariant (loopStep (loopStep initState ⟨dtAt 1000, 2000, some uidA, none⟩).1
        ⟨dtAt 5000, 4000, none, some uidA⟩).1 := by
  decide

/-- C1, amended: processing a valid exit for a slot sets `inside = false`
but leaves every slot's `entry_time` unchanged (the stale value is NOT
cleared), so the iff-invariant fails after the first exit. -/
theorem c1_amended_exit_preserves_entryTimes (st : SysState) (now : DateTimeRec)
    (m : Nat) (b : List Nat) (i : Fin NUM_KNOWN_CARDS)
    (hres : findPersonByUID (getUID b) = some i)
    (hins : st.isInside i = true)
    (hg : usub32 m st.lastScanTime ≥ DEBOUNCE_TIME) :
    (loopStep st ⟨now, m, none, some b⟩).2
      = [Outcome.validExit i (usub32 now.unixtime (st.entryTimes i))] ∧
    (loopStep st ⟨now, m, none, some b⟩).1.isInside i = false ∧
    (loopStep st ⟨now, m, none, some b⟩).1.entryTimes = st.entryTimes := by
  obtain ⟨ho, het, his, _, _, _⟩ := validExit_step st now m b i hres hins hg
  refine ⟨ho, ?_, het⟩
  rw [his, Function.update_same]

/-- C1, witness for the amended theorem at a concrete run. -/
theorem c1_amended_witness :
    (loopStep (loopStep initState ⟨dtAt 1000, 2000, some uidA, none⟩).1
        ⟨dtAt 5000, 4000, none, some uidA⟩).2 = [Outcome.validExit 0 4000] ∧
    (loopStep (loopStep initState ⟨dtAt 1000, 2000, some uidA, none⟩).1
        ⟨dtAt 5000, 4000, none, some uidA⟩).1.isInside 0 = false ∧
    (loopStep (loopStep initState ⟨dtAt 1000, 2000, some uidA, none⟩).1
        ⟨dtAt 5000, 4000, none, some uidA⟩).1.entryTimes
      = (loopStep initState ⟨dtAt 1000, 2000, some uidA, none⟩).1.entryTimes := by
  exact c1_amended_exit_preserves_entryTimes _ (dtAt 5000) 4000 uidA 0
    (by decide) (by decide) (by decide)

/-! ### C2 -/

/-- C2, counterexample: with a card at BOTH readers in one iteration and
the gate open, the single debounce check at the top of `loop()` covers
both reader blocks, so two events are accepted, classified and logged in
the same iteration — 0 ms apart, far less than 1500 ms. -/
theorem c2_counterexample :
    (loopStep initState ⟨dtAt 1000, 2000, some uidA, some uidB⟩).2
      = [Outcome.validEntry 0, Outcome.invalidExit 1] ∧
    (loopStep initState ⟨dtAt 1000, 2000, some uidA, some uidB⟩).1.errLog.errorCount = 1 := by
  decide

/-- C2, amended: the debounce gate works at iteration granularity: an
iteration whose `millis` is less than 1500 ms (unsigned) past
`lastScanTime` accepts, classifies and logs nothing; and whenever two
consecutive iterations each accept at least one event, their `millis`
stamps are at least 1500 ms apart — but within one open iteration both
lanes may each have an event accepted. -/
theorem c2_amended_debounce (st : SysState) (inp inp₁ inp₂ : LoopInput) :
    (usub32 inp.millis st.lastScanTime < DEBOUNCE_TIME →
      (loopStep st inp).2 = [] ∧
      (loopStep st inp).1.isInside = st.isInside ∧
      (loopStep st inp).1.entryTimes = st.entryTimes ∧
      (loopStep st inp).1.errLog = st.errLog) ∧
    ((loopStep st inp₁).2 ≠ [] →
      (loopStep (loopStep st inp₁).1 inp₂).2 ≠ [] →
      usub32 inp₂.millis inp₁.millis ≥ DEBOUNCE_TIME) := by
  constructor
  · intro hg
    obtain ⟨ho, het, his, _, hlog⟩ := gateClosed_step st inp hg
    exact ⟨ho, his, het, hlog⟩
  · intro h₁ h₂
    have hlst := loopStep_emits_lastScanTime st inp₁ h₁
    have hgate := loopStep_emits_gate (loopStep st inp₁).1 inp₂ h₂
    rw [hlst] at hgate
    exact hgate

/-- C2, witness for the amended theorem at concrete runs. -/
theorem c2_amended_witness :
    ((loopStep initState ⟨dtAt 500, 100, some uidA, none⟩).2 = [] ∧
     (loopStep initState ⟨dtAt 500, 100, some uidA, none⟩).1.isInside
        = initState.isInside ∧
     (loopStep initState ⟨dtAt 500, 100, some uidA, none⟩).1.entryTimes
        = initState.entryTimes ∧
     (loopStep initState ⟨dtAt 500, 100, some uidA, none⟩).1.errLog
        = initState.errLog) ∧
    usub32 4000 2000 ≥ DEBOUNCE_TIME := by
  have h := c2_amended_debounce initState ⟨dtAt 500, 100, some uidA, none⟩
    ⟨dtAt 1000, 2000, some uidA, none⟩ ⟨dtAt 5000, 4000, none, some uidA⟩
  exact ⟨h.1 (by decide), h.2 (by decide) (by decide)⟩

/-! ### C3 -/

/-- C3: for a known credential with `inside = false`, an accepted Entry
event yields ValidEntry and sets `inside = true`, `entry_time = now`; a
second accepted Entry with no intervening Exit yields DoubleEntry and
mutates nothing, so after `[Entry(A), Entry(A)]` the slot is inside with
the original entry time preserved. -/
theorem c3_entry_classification (st : SysState) (now₁ now₂ : DateTimeRec)
    (m₁ m₂ : Nat) (b : List Nat) (i : Fin NUM_KNOWN_CARDS)
    (hres : findPersonByUID (getUID b) = some i)
    (hins : st.isInside i = false)
    (hg₁ : usub32 m₁ st.lastScanTime ≥ DEBOUNCE_TIME)
    (hg₂ : usub32 m₂ m₁ ≥ DEBOUNCE_TIME) :
    (loopStep st ⟨now₁, m₁, some b, none⟩).2 = [Outcome.validEntry i] ∧
    (loopStep st ⟨now₁, m₁, some b, none⟩).1.isInside i = true ∧
    (loopStep st ⟨now₁, m₁, some b, none⟩).1.entryTimes i = now₁.unixtime ∧
    (loopStep (loopStep st ⟨now₁, m₁, some b, none⟩).1 ⟨now₂, m₂, some b, none⟩).2
      = [Outcome.doubleEntry i] ∧
    (loopStep (loopStep st ⟨now₁, m₁, some b, none⟩).1 ⟨now₂, m₂, some b, none⟩).1.isInside i
      = true ∧
    (loopStep (loopStep st ⟨now₁, m₁, some b, none⟩).1 ⟨now₂, m₂, some b, none⟩).1.entryTimes i
      = now₁.unixtime := by
  obtain ⟨ho₁, het₁, his₁, hlst₁, _, _⟩ := validEntry_step st now₁ m₁ b i hres hins hg₁
  have hins₁ : (loopStep st ⟨now₁, m₁, some b, none⟩).1.isInside i = true := by
    rw [his₁, Function.update_same]
  have het₁' : (loopStep st ⟨now₁, m₁, some b, none⟩).1.entryTimes i = now₁.unixtime := by
    rw [het₁, Function.update_same]
  have hg₂' : usub32 m₂ (loopStep st ⟨now₁, m₁, some b, none⟩).1.lastScanTime
      ≥ DEBOUNCE_TIME := by
    rw [hlst₁]; exact hg₂
  obtain ⟨ho₂, het₂, his₂, _, _, _⟩ :=
    doubleEntry_step (loopStep st ⟨now₁, m₁, some b, none⟩).1 now₂ m₂ b i hres hins₁ hg₂'
  exact ⟨ho₁, hins₁, het₁', ho₂,
    (congrFun his₂ i).trans hins₁, (congrFun het₂ i).trans het₁'⟩

/-- C3, witness: Andrei entering twice from the initial state. -/
theorem c3_witness :
    (loopStep initState ⟨dtAt 1000, 2000, some uidA, none⟩).2
      = [Outcome.validEntry 0] ∧
    (loopStep initState ⟨dtAt 1000, 2000, some uidA, none⟩).1.isInside 0 = true ∧
    (loopStep initState ⟨dtAt 1000, 2000, some uidA, none⟩).1.entryTimes 0 = 1000 ∧
    (loopStep (loopStep initState ⟨dtAt 1000, 2000, some uidA, none⟩).1
        ⟨dtAt 1600, 4000, some uidA, none⟩).2 = [Outcome.doubleEntry 0] ∧
    (loopStep (loopStep initState ⟨dtAt 1000, 2000, some uidA, none⟩).1
        ⟨dtAt 1600, 4000, some uidA, none⟩).1.isInside 0 = true ∧
    (loopStep (loopStep initState ⟨dtAt 1000, 2000, some uidA, none⟩).1
        ⟨dtAt 1600, 4000, some uidA, none⟩).1.entryTimes 0 = 1000 := by
  exact c3_entry_classification initState (dtAt 1000) (dtAt 1600) 2000 4000 uidA 0
    (by decide) (by decide) (by decide) (by decide)

/-! ### C4 -/

/-- C4: for a known credential, the accepted sequence Entry at unix time
t₀ then Exit at t₁ with t₀ ≤ t₁ < 2^32 yields ValidExit with dwell
exactly t₁ - t₀, and the slot ends with `inside = false`. -/
theorem c4_dwell_correct (st : SysState) (now₁ now₂ : DateTimeRec)
    (m₁ m₂ : Nat) (b : List Nat) (i : Fin NUM_KNOWN_CARDS)
    (hres : findPersonByUID (getUID b) = some i)
    (hins : st.isInside i = false)
    (hg₁ : usub32 m₁ st.lastScanTime ≥ DEBOUNCE_TIME)
    (hg₂ : usub32 m₂ m₁ ≥ DEBOUNCE_TIME)
    (ht : now₁.unixtime ≤ now₂.unixtime) (hw : now₂.unixtime < W32) :
    (loopStep (loopStep st ⟨now₁, m₁, some b, none⟩).1 ⟨now₂, m₂, none, some b⟩).2
      = [Outcome.validExit i (now₂.unixtime - now₁.unixtime)] ∧
    (loopStep (loopStep st ⟨now₁, m₁, some b, none⟩).1 ⟨now₂, m₂, none, some b⟩).1.isInside i
      = false := by
  obtain ⟨_, het₁, his₁, hlst₁, _, _⟩ := validEntry_step st now₁ m₁ b i hres hins hg₁
  have hins₁ : (loopStep st ⟨now₁, m₁, some b, none⟩).1.isInside i = true := by
    rw [his₁, Function.update_same]
  have hg₂' : usub32 m₂ (loopStep st ⟨now₁, m₁, some b, none⟩).1.lastScanTime
      ≥ DEBOUNCE_TIME := by
    rw [hlst₁]; exact hg₂
  obtain ⟨ho₂, _, his₂, _, _, _⟩ :=
    validExit_step (loopStep st ⟨now₁, m₁, some b, none⟩).1 now₂ m₂ b i hres hins₁ hg₂'
  constructor
  · rw [ho₂]
    have hent : (loopStep st ⟨now₁, m₁, some b, none⟩).1.entryTimes i = now₁.unixtime := by
      rw [het₁, Function.update_same]
    rw [hent, usub32_of_le ht hw]
  · rw [his₂, Function.update_same]

/-- C4, witness: Andrei enters at unix time 1000 and exits at 4600; the
displayed dwell is 3600 seconds. -/
theorem c4_witness :
    (loopStep (loopStep initState ⟨dtAt 1000, 2000, some uidA, none⟩).1
        ⟨dtAt 4600, 4000, none, some uidA⟩).2 = [Outcome.validExit 0 3600] ∧
    (loopStep (loopStep initState ⟨dtAt 1000, 2000, some uidA, none⟩).1
        ⟨dtAt 4600, 4000, none, some uidA⟩).1.isInside 0 = false := by
  exact c4_dwell_correct initState (dtAt 1000) (dtAt 4600) 2000 4000 uidA 0
    (by decide) (by decide) (by decide) (by decide) (by decide) (by decide)

/-! ### C5 -/

/-- C5: `logError`'s buffer write stores the entry at index
`errorCount % MAX_ERROR_LOG` and increments the monotonic counter; and
for ANY sequence of appended entries, `printErrorLog` returns exactly the
last `min (length, 10)` entries, oldest first, with no duplication or
reordering — in particular after 15 appends it returns entries 5..14, and
for at most 10 appends it returns all of them in append order. -/
theorem c5_error_log :
    (∀ (L : ErrLog) (entry : List Char),
      (logAppend L entry).errorCount = L.errorCount + 1 ∧
      (logAppend L entry).errorLog (logIdx L.errorCount) = entry) ∧
    (∀ ms : List (List Char),
      printErrorLog (logAppendAll emptyLog ms) = ms.drop (ms.length - MAX_ERROR_LOG)) := by
  refine ⟨fun L entry => ⟨rfl, ?_⟩, printErrorLog_appendAll⟩
  simp [logAppend, Function.update_same]

/-! ### C7 -/

/-- C7: for a known credential whose slot has `inside = false`, an
accepted Exit event yields InvalidExit, leaves every slot's `inside` and
`entry_time` untouched, and appends exactly one entry to the error log. -/
theorem c7_invalid_exit_atomic (st : SysState) (now : DateTimeRec) (m : Nat)
    (b : List Nat) (i : Fin NUM_KNOWN_CARDS)
    (hres : findPersonByUID (getUID b) = some i)
    (hins : st.isInside i = false)
    (hg : usub32 m st.lastScanTime ≥ DEBOUNCE_TIME) :
    (loopStep st ⟨now, m, none, some b⟩).2 = [Outcome.invalidExit i] ∧
    (loopStep st ⟨now, m, none, some b⟩).1.isInside = st.isInside ∧
    (loopStep st ⟨now, m, none, some b⟩).1.entryTimes = st.entryTimes ∧
    (loopStep st ⟨now, m, none, some b⟩).1.errLog
      = logError st.errLog now (("Invalid exit: ").data ++ knownNames i) ∧
    (loopStep st ⟨now, m, none, some b⟩).1.errLog.errorCount
      = st.errLog.errorCount + 1 := by
  obtain ⟨ho, het, his, _, _, hlog⟩ := invalidExit_step st now m b i hres hins hg
  refine ⟨ho, his, het, hlog, ?_⟩
  rw [hlog]
  rfl

/-- C7, witness: Bogdan attempting to exit from the initial state (he
never entered). -/
theorem c7_witness :
    (loopStep initState ⟨dtAt 1000, 2000, none, some uidB⟩).2
      = [Outcome.invalidExit 1] ∧
    (loopStep initState ⟨dtAt 1000, 2000, none, some uidB⟩).1.isInside
      = initState.isInside ∧
    (loopStep initState ⟨dtAt 1000, 2000, none, some uidB⟩).1.entryTimes
      = initState.entryTimes ∧
    (loopStep initState ⟨dtAt 1000, 2000, none, some uidB⟩).1.errLog
      = logError initState.errLog (dtAt 1000) (("Invalid exit: ").data ++ knownNames 1) ∧
    (loopStep initState ⟨dtAt 1000, 2000, none, some uidB⟩).1.errLog.errorCount
      = initState.errLog.errorCount + 1 := by
  exact c7_invalid_exit_atomic initState (dtAt 1000) 2000 uidB 1
    (by decide) (by decide) (by decide)

/-! ### C6 -/

/-- C6: credential resolution compares only the first 8 characters; the
string reaching `findPersonByUID` is the uppercase normalization produced
by `getUID` (line 358), so identifiers agreeing up to case resolve alike —
e.g. a presented `"5ada9c80xx"` normalizes to `"5ADA9C80XX"` and matches
the slot configured `"5ADA9C80"` — and the comparison walks the configured
identifiers in order, returning the first match or none. -/
theorem c6_uid_resolution :
    (∀ s t : List Char, s.take 8 = t.take 8 →
      findPersonByUID s = findPersonByUID t) ∧
    (∀ s t : List Char, s.map Char.toUpper = t.map Char.toUpper →
      findPersonByUID (s.map Char.toUpper) = findPersonByUID (t.map Char.toUpper)) ∧
    (findPersonByUID (("5ada9c80xx").data.map Char.toUpper) = some 0) ∧
    (("5ada9c80xx").data.map Char.toUpper = ("5ADA9C80XX").data) ∧
    (knownUIDs 0 = ("5ADA9C80").data) ∧
    (findPersonByUID (getUID uidA) = some 0) ∧
    (∀ s : List Char,
      (findPersonByUID s = some 0 ↔ s.take 8 = knownUIDs 0) ∧
      (findPersonByUID s = some 1 ↔
        s.take 8 ≠ knownUIDs 0 ∧ s.take 8 = knownUIDs 1) ∧
      (findPersonByUID s = some 2 ↔
        s.take 8 ≠ knownUIDs 0 ∧ s.take 8 ≠ knownUIDs 1 ∧ s.take 8 = knownUIDs 2) ∧
      (findPersonByUID s = none ↔
        s.take 8 ≠ knownUIDs 0 ∧ s.take 8 ≠ knownUIDs 1 ∧ s.take 8 ≠ knownUIDs 2)) := by
  refine ⟨?_, ?_, by decide, by decide, by decide, by decide, ?_⟩
  · intro s t h
    unfold findPersonByUID
    rw [h]
  · intro s t h
    rw [h]
  · intro s
    have d01 : some (0 : Fin NUM_KNOWN_CARDS) ≠ some 1 := by decide
    have d02 : some (0 : Fin NUM_KNOWN_CARDS) ≠ some 2 := by decide
    have d12 : some (1 : Fin NUM_KNOWN_CARDS) ≠ some 2 := by decide
    unfold findPersonByUID
    split_ifs with h1 h2 h3 <;> refine ⟨?_, ?_, ?_, ?_⟩ <;> simp_all

/-- C6, witness: the take-8 congruence applied to two identifiers sharing
their first 8 characters. -/
theorem c6_witness :
    findPersonByUID (("5ADA9C80XX").data) = findPersonByUID (("5ADA9C80ZZ").data) :=
  c6_uid_resolution.1 (("5ADA9C80XX").data) (("5ADA9C80ZZ").data) (by decide)

/-! ### C8 -/

/-- The `LoopInput` presenting raw bytes `b` on the given lane only. -/
def laneInput (l : Lane) (now : DateTimeRec) (m : Nat) (b : List Nat) : LoopInput :=
  match l with
  | Lane.entrance => ⟨now, m, some b, none⟩
  | Lane.exitLane => ⟨now, m, none, some b⟩

/-- C8: an accepted event on either lane whose credential resolves to no
configured slot yields UnknownCredential for that lane, mutates no
presence state, and appends one entry to the error log. -/
theorem c8_unknown_credential (st : SysState) (now : DateTimeRec) (m : Nat)
    (b : List Nat) (l : Lane)
    (hres : findPersonByUID (getUID b) = none)
    (hg : usub32 m st.lastScanTime ≥ DEBOUNCE_TIME) :
    (loopStep st (laneInput l now m b)).2
      = [Outcome.unknownCredential l (getUID b)] ∧
    (loopStep st (laneInput l now m b)).1.isInside = st.isInside ∧
    (loopStep st (laneInput l now m b)).1.entryTimes = st.entryTimes ∧
    (loopStep st (laneInput l now m b)).1.errLog.errorCount
      = st.errLog.errorCount + 1 := by
  cases l with
  | entrance =>
    simp only [laneInput]
    obtain ⟨ho, het, his, _, _, hlog⟩ := unknownEntry_step st now m b hres hg
    refine ⟨ho, his, het, ?_⟩
    rw [hlog]
    rfl
  | exitLane =>
    simp only [laneInput]
    obtain ⟨ho, het, his, _, _, hlog⟩ := unknownExit_step st now m b hres hg
    refine ⟨ho, his, het, ?_⟩
    rw [hlog]
    rfl

/-- C8, witness: an unconfigured card on the exit lane from the initial
state. -/
theorem c8_witness :
    (loopStep initState (laneInput Lane.exitLane (dtAt 1000) 2000 [18, 52, 86, 120])).2
      = [Outcome.unknownCredential Lane.exitLane (getUID [18, 52, 86, 120])] ∧
    (loopStep initState (laneInput Lane.exitLane (dtAt 1000) 2000 [18, 52, 86, 120])).1.isInside
      = initState.isInside ∧
    (loopStep initState (laneInput Lane.exitLane (dtAt 1000) 2000 [18, 52, 86, 120])).1.entryTimes
      = initState.entryTimes ∧
    (loopStep initState (laneInput Lane.exitLane (dtAt 1000) 2000 [18, 52, 86, 120])).1.errLog.errorCount
      = initState.errLog.errorCount + 1 := by
  exact c8_unknown_credential initState (dtAt 1000) 2000 [18, 52, 86, 120] Lane.exitLane
    (by decide) (by decide)

/-! ### C9 -/

/-- C9: after an iteration, the ready screen is showing exactly when
either no event was accepted and it was already showing, or no event was
accepted and at least 3000 ms (unsigned) have elapsed since the last
accepted event; any accepted event in the iteration pre-empts the return
to the ready screen. -/
theorem c9_presentation_window (st : SysState) (inp : LoopInput) :
    (loopStep st inp).1.inReadyMode =
      (if (loopStep st inp).2 = [] then
        st.inReadyMode || decide (usub32 inp.millis st.lastScanTime ≥ 3000)
      else false) := by
  by_cases h : (loopStep st inp).2 = []
  · rw [if_pos h]
    simp only [loopStep] at h ⊢
    have hs := scanPhase_nil_state (updMinute st inp.now) inp h
    rw [hs, readyReset_inReadyMode]
    simp
  · rw [if_neg h]
    simp only [loopStep] at h ⊢
    have he := scanPhase_emits (updMinute st inp.now) inp h
    rw [readyReset_inReadyMode, he.1, he.2]
    simp [usub32_self]

/-! ### C10 -/

/-- C10: the dwell shown on a valid exit is the unsigned 32-bit
difference `(exit_unixtime - entry_unixtime) mod 2^32`; when the clock
moved backwards (exit before the recorded entry) it wraps to a huge
positive count instead of being negative or an error. -/
theorem c10_dwell_unsigned (st : SysState) (now : DateTimeRec) (m : Nat)
    (b : List Nat) (i : Fin NUM_KNOWN_CARDS)
    (hres : findPersonByUID (getUID b) = some i)
    (hins : st.isInside i = true)
    (hg : usub32 m st.lastScanTime ≥ DEBOUNCE_TIME)
    (he : st.entryTimes i < W32) (hn : now.unixtime < W32) :
    (loopStep st ⟨now, m, none, some b⟩).2
      = [Outcome.validExit i (usub32 now.unixtime (st.entryTimes i))] ∧
    ((usub32 now.unixtime (st.entryTimes i) : Int)
      = ((now.unixtime : Int) - (st.entryTimes i : Int)) % ((W32 : Nat) : Int)) ∧
    (now.unixtime < st.entryTimes i →
      usub32 now.unixtime (st.entryTimes i)
        = W32 - (st.entryTimes i - now.unixtime)) := by
  obtain ⟨ho, _, _, _, _, _⟩ := validExit_step st now m b i hres hins hg
  refine ⟨ho, ?_, ?_⟩
  · simp only [usub32, W32] at *
    omega
  · intro hlt
    have hv := usub32_of_lt hlt he
    simp only [W32] at *
    omega

/-- C10, witness: entry recorded at unix time 100, clock moved back to 50
at exit: the dwell wraps to 2^32 - 50. -/
theorem c10_witness :
    (loopStep
      { initState with
          entryTimes := Function.update initState.entryTimes 0 100
          isInside := Function.update initState.isInside 0 true }
      ⟨dtAt 50, 2000, none, some uidA⟩).2
      = [Outcome.validExit 0 4294967246] ∧
    ((4294967246 : Int) = ((50 : Int) - (100 : Int)) % ((W32 : Nat) : Int)) ∧
    (usub32 50 100 = 4294967246) := by
  have h := c10_dwell_unsigned
    { initState with
        entryTimes := Function.update initState.entryTimes 0 100
        isInside := Function.update initState.isInside 0 true }
    (dtAt 50) 2000 uidA 0 (by decide) (by decide) (by decide) (by decide) (by decide)
  refine ⟨?_, ?_, ?_⟩
  · rw [h.1]
    decide
  · decide
  · have hw := h.2.2 (by decide)
    simpa using hw

end RFID
